import Mathlib

/-!
Verification of the computational core of a business-analytics dashboard
(`src/app.py`): a fixed 12-row table of monthly Sales/Expenses/Customers,
a metrics calculator (total, mean, first-to-last growth percentage), and
two chart builders (a per-month line chart and a three-bar averages chart).

Modelling conventions:
* A pandas row is a `Row`; the DataFrame is a `List Row` in calendar order.
* Numeric values are rationals (`ℚ`): all source data are small integers and
  every division performed by the code is exact on the data of interest.
* Column lookup `df[metric]` is by string name and returns `Option`,
  `none` modelling the `KeyError` pandas raises on an unknown column.
* `calculate_metrics` returns `Option`: `none` models the `IndexError`
  raised by `.iloc[0]` on an empty frame (and the `KeyError` case above).
* `df.iloc[a:b]` integer slicing uses Python slice semantics: negative
  indices are taken from the end and everything is clamped to the bounds,
  never raising.
-/

namespace Dashboard

/-- One row of the dashboard's DataFrame: a month label and the three
numeric columns `Sales`, `Expenses`, `Customers`. -/
structure Row where
  month : String
  sales : ℚ
  expenses : ℚ
  customers : ℚ
deriving DecidableEq, Repr

/-- `load_data` from `src/app.py`: the fixed 12-row table, built column by
column in the source and transposed here into rows (Jan..Dec). -/
def load_data : List Row :=
  [ ⟨"Jan", 1000, 800, 100⟩,
    ⟨"Feb", 1200, 850, 120⟩,
    ⟨"Mar", 900, 750, 115⟩,
    ⟨"Apr", 1500, 950, 130⟩,
    ⟨"May", 1800, 1000, 140⟩,
    ⟨"Jun", 1700, 1100, 150⟩,
    ⟨"Jul", 1600, 1200, 160⟩,
    ⟨"Aug", 2000, 1300, 170⟩,
    ⟨"Sep", 2200, 1400, 180⟩,
    ⟨"Oct", 1900, 1200, 175⟩,
    ⟨"Nov", 2100, 1100, 165⟩,
    ⟨"Dec", 2500, 1000, 190⟩ ]

/-- The numeric column named `metric`, as a row accessor; `none` models the
`KeyError` pandas raises for a name that is not a column of the table. -/
def colFn (metric : String) : Option (Row → ℚ) :=
  if metric = "Sales" then some Row.sales
  else if metric = "Expenses" then some Row.expenses
  else if metric = "Customers" then some Row.customers
  else none

/-- `df[metric]`: the column of `df` named `metric`, if any. -/
def getCol (df : List Row) (metric : String) : Option (List ℚ) :=
  (colFn metric).map (fun f => df.map f)

/-- The three metric names offered by the sidebar selectbox in `main`. -/
def validMetrics : List String := ["Sales", "Expenses", "Customers"]

/-- Arithmetic mean of a list of rationals, as computed by pandas
`Series.mean` on a non-empty series (sum divided by length). -/
def mean (l : List ℚ) : ℚ := l.sum / l.length

/-- `calculate_metrics(df, metric)` from `src/app.py`:
`total = df[metric].sum()`, `avg = df[metric].mean()`,
`first = df[metric].iloc[0]`, `last = df[metric].iloc[-1]`,
`growth = ((last - first) / first) * 100 if first > 0 else 0`.
`none` models the `KeyError` on an unknown column and the `IndexError`
raised by `.iloc[0]` on an empty frame. -/
def calculate_metrics (df : List Row) (metric : String) : Option (ℚ × ℚ × ℚ) :=
  match getCol df metric with
  | none => none
  | some [] => none
  | some (v :: rest) =>
    let vals := v :: rest
    let total := vals.sum
    let avg := mean vals
    let first := v
    let last := rest.getLastD v
    let growth := if first > 0 then ((last - first) / first) * 100 else 0
    some (total, avg, growth)

/-- The plotly line-chart specification produced by `update_line_chart`:
`px.line(df, x='Month', y=metric, markers=True, title=f'Monthly {metric}')`
followed by `update_layout(xaxis_title='Month', yaxis_title=metric)`. -/
structure LineChart where
  x : List String
  y : List ℚ
  markers : Bool
  title : String
  xaxisTitle : String
  yaxisTitle : String
deriving DecidableEq, Repr

/-- `update_line_chart(df, metric)` from `src/app.py`; `none` models the
error px raises when `metric` is not a column of `df`. -/
def update_line_chart (df : List Row) (metric : String) : Option LineChart :=
  match getCol df metric with
  | none => none
  | some vals =>
    some { x := df.map Row.month
           y := vals
           markers := true
           title := "Monthly " ++ metric
           xaxisTitle := "Month"
           yaxisTitle := metric }

/-- The plotly bar-chart specification produced by `update_bar_chart`:
`px.bar(avg_data, x='Metric', y='Average', title='Average Metrics',
color='Metric')`. -/
structure BarChart where
  x : List String
  y : List ℚ
  title : String
  color : String
deriving DecidableEq, Repr

/-- `update_bar_chart(df)` from `src/app.py`: three bars, the mean of each
numeric column, the `Customers` mean scaled by 10. -/
def update_bar_chart (df : List Row) : BarChart :=
  { x := ["Sales", "Expenses", "Customers"]
    y := [ mean (df.map Row.sales),
           mean (df.map Row.expenses),
           mean (df.map Row.customers) * 10 ]
    title := "Average Metrics"
    color := "Metric" }

/-- Clamp one endpoint of a Python slice of a length-`n` sequence:
negative indices count from the end, everything is clamped to `[0, n]`. -/
def pyIdx (n : Nat) (i : Int) : Nat :=
  if i < 0 then (i + n).toNat else min i.toNat n

/-- Python slicing `l[a:b]` with step 1 (also the semantics of
`df.iloc[a:b]`): clamped, never raising. -/
def pySlice (l : List Row) (a b : Int) : List Row :=
  (l.drop (pyIdx l.length a)).take (pyIdx l.length b - pyIdx l.length a)

/-- `filtered_df = df.iloc[start_month:end_month+1]` from `main` in
`src/app.py`, applied to the fixed table. -/
def filtered_df (start_month end_month : Int) : List Row :=
  pySlice load_data start_month (end_month + 1)

/-- The metrics pipeline of `main`: slice the fixed table by the selected
month range, then run `calculate_metrics` on the selected metric. -/
def run_dashboard (start_month end_month : Int) (metric : String) :
    Option (ℚ × ℚ × ℚ) :=
  calculate_metrics (filtered_df start_month end_month) metric

/-! ## Helper lemmas shared by the claim theorems -/

/-- Unfolding `calculate_metrics` on a non-empty column. -/
theorem calculate_metrics_cons (df : List Row) (m : String) (v : ℚ)
    (rest : List ℚ) (h : getCol df m = some (v :: rest)) :
    calculate_metrics df m =
      some ((v :: rest).sum, mean (v :: rest),
        if v > 0 then ((rest.getLastD v - v) / v) * 100 else 0) := by
  unfold calculate_metrics
  rw [h]

/-- `calculate_metrics` propagates a failed column lookup (`KeyError`). -/
theorem calculate_metrics_none_col {df : List Row} {m : String}
    (h : getCol df m = none) : calculate_metrics df m = none := by
  unfold calculate_metrics
  rw [h]

/-- `calculate_metrics` fails on an empty column (`IndexError` at
`iloc[0]`). -/
theorem calculate_metrics_nil_col {df : List Row} {m : String}
    (h : getCol df m = some []) : calculate_metrics df m = none := by
  unfold calculate_metrics
  rw [h]

/-- `calculate_metrics` fails on an empty frame, whatever the metric. -/
theorem calculate_metrics_nil (m : String) :
    calculate_metrics ([] : List Row) m = none := by
  cases hc : colFn m with
  | none => exact calculate_metrics_none_col (by simp [getCol, hc])
  | some f => exact calculate_metrics_nil_col (by simp [getCol, hc])

/-- Each of the three valid metric names has a column accessor. -/
theorem colFn_of_mem {m : String} (hm : m ∈ validMetrics) :
    ∃ f, colFn m = some f := by
  simp only [validMetrics, List.mem_cons, List.not_mem_nil, or_false] at hm
  rcases hm with rfl | rfl | rfl <;> exact ⟨_, rfl⟩

/-- A metric name outside the three columns fails to look up
(`KeyError`). -/
theorem colFn_eq_none_of_not_mem {m : String} (hm : m ∉ validMetrics) :
    colFn m = none := by
  simp only [validMetrics, List.mem_cons, List.not_mem_nil, or_false,
    not_or] at hm
  simp [colFn, hm.1, hm.2.1, hm.2.2]

/-- A Python slice with a clamped stop at or before the clamped start is
empty. -/
theorem pySlice_eq_nil {l : List Row} {a b : Int}
    (h : pyIdx l.length b ≤ pyIdx l.length a) : pySlice l a b = [] := by
  unfold pySlice
  rw [Nat.sub_eq_zero_of_le h, List.take_zero]

/-- `getLastD` commutes with `map`. -/
theorem getLastD_map (f : Row → ℚ) (r : Row) (rs : List Row) :
    (rs.map f).getLastD (f r) = f (rs.getLastD r) := by
  induction rs generalizing r with
  | nil => rfl
  | cons a l ih => simp only [List.map_cons, List.getLastD_cons, ih]

/-- The last element of a non-empty list, via `getLastD`. -/
theorem getLast_cons_eq_getLastD (r : Row) (rs : List Row) :
    (r :: rs).getLast (List.cons_ne_nil r rs) = rs.getLastD r := by
  induction rs generalizing r with
  | nil => rfl
  | cons a l ih => rw [List.getLast_cons (List.cons_ne_nil a l), ih, List.getLastD_cons]

/-- The full-year view (inclusive indices 0..11) is the whole table. -/
theorem filtered_df_full : filtered_df 0 11 = load_data := rfl

/-! ## Claim theorems -/

/-- C4: on the full-year view with metric `Sales`, `calculate_metrics`
returns total `20400`, average `1700.0` and growth `150.0` percent. -/
theorem claim_C4_full_year_sales_metrics :
    calculate_metrics (filtered_df 0 11) "Sales" =
      some (20400, 1700, 150) := by
  rw [filtered_df_full,
    calculate_metrics_cons load_data "Sales" 1000
      [1200, 900, 1500, 1800, 1700, 1600, 2000, 2200, 1900, 2100, 2500] rfl]
  norm_num [mean]

/-- C5: on the Jan..Mar view (indices 0..2) with metric `Expenses`,
`calculate_metrics` returns total `2400`, average `800.0` and growth
`-6.25` percent. -/
theorem claim_C5_jan_mar_expenses_metrics :
    calculate_metrics (filtered_df 0 2) "Expenses" =
      some (2400, 800, -(25 / 4)) := by
  rw [calculate_metrics_cons (filtered_df 0 2) "Expenses" 800 [850, 750] rfl]
  norm_num [mean]

/-- C9: on the full-range (12-row) view, for each of the three valid
metrics the returned average equals the returned total divided by 12. -/
theorem claim_C9_average_eq_total_div_twelve (m : String)
    (hm : m ∈ validMetrics) :
    ∃ t a g, calculate_metrics (filtered_df 0 11) m = some (t, a, g) ∧
      a = t / 12 := by
  simp only [validMetrics, List.mem_cons, List.not_mem_nil, or_false] at hm
  rcases hm with rfl | rfl | rfl
  · rw [filtered_df_full,
      calculate_metrics_cons load_data "Sales" 1000
        [1200, 900, 1500, 1800, 1700, 1600, 2000, 2200, 1900, 2100, 2500] rfl]
    exact ⟨_, _, _, rfl, by norm_num [mean]⟩
  · rw [filtered_df_full,
      calculate_metrics_cons load_data "Expenses" 800
        [850, 750, 950, 1000, 1100, 1200, 1300, 1400, 1200, 1100, 1000] rfl]
    exact ⟨_, _, _, rfl, by norm_num [mean]⟩
  · rw [filtered_df_full,
      calculate_metrics_cons load_data "Customers" 100
        [120, 115, 130, 140, 150, 160, 170, 180, 175, 165, 190] rfl]
    exact ⟨_, _, _, rfl, by norm_num [mean]⟩

/-- C9 witness: the theorem instantiated at the metric `Sales`. -/
theorem claim_C9_witness :
    ∃ t a g, calculate_metrics (filtered_df 0 11) "Sales" = some (t, a, g) ∧
      a = t / 12 :=
  claim_C9_average_eq_total_div_twelve "Sales" (by simp [validMetrics])

/-- C2 counterexample: on the full-year view the bar chart's values are
`[1700, 6325/6, 8975/6]`; its Expenses bar `6325/6 ≈ 1054.17` differs from
the claimed `≈ 1004.17` by fifty, and its Customers bar
`8975/6 ≈ 1495.83` is not the claimed `1504.167`. -/
theorem claim_C2_counterexample :
    (update_bar_chart (filtered_df 0 11)).y = [1700, 6325 / 6, 8975 / 6] ∧
    (6325 / 6 : ℚ) - 100417 / 100 > 1 ∧
    (8975 / 6 : ℚ) ≠ 1504167 / 1000 ∧
    (1504167 / 1000 : ℚ) - 8975 / 6 > 1 := by
  refine ⟨?_, by norm_num, by norm_num, by norm_num⟩
  rw [filtered_df_full]
  norm_num [update_bar_chart, mean, load_data]

/-- C2 amended: on the full-year view the bar chart has a Sales bar of
`1700.0`, an Expenses bar of `12650/12 ≈ 1054.17`, and a Customers bar of
`(1795/12) × 10 = 8975/6 ≈ 1495.83`. -/
theorem claim_C2_amended_full_year_bar_chart :
    update_bar_chart (filtered_df 0 11) =
      { x := ["Sales", "Expenses", "Customers"],
        y := [1700, 12650 / 12, 1795 / 12 * 10],
        title := "Average Metrics",
        color := "Metric" } := by
  rw [filtered_df_full]
  norm_num [update_bar_chart, mean, load_data]

/-- C1: on every non-empty view and valid metric, `calculate_metrics`
succeeds and its growth component equals
`(last - first) / first * 100` when the first row's value is positive,
and `0` whenever that value is non-positive — in particular `0` (an exact
rational, never NaN or Infinity) when the first row's value is `0`. -/
theorem claim_C1_growth_formula (r : Row) (l : List Row) (m : String)
    (f : Row → ℚ) (hf : colFn m = some f) :
    ∃ t a g, calculate_metrics (r :: l) m = some (t, a, g) ∧
      (0 < f r →
        g = (f ((r :: l).getLast (List.cons_ne_nil r l)) - f r) / f r * 100) ∧
      (f r ≤ 0 → g = 0) ∧
      (f r = 0 → g = 0) := by
  rw [calculate_metrics_cons (r :: l) m (f r) (l.map f) (by simp [getCol, hf])]
  refine ⟨_, _, _, rfl, ?_, ?_, ?_⟩
  · intro h
    rw [if_pos h, getLastD_map, getLast_cons_eq_getLastD]
  · intro h
    rw [if_neg (not_lt.mpr h)]
  · intro h
    rw [if_neg (by rw [h]; exact lt_irrefl 0)]

/-- C1 witness: the theorem instantiated at the single-row view `[Jan]`
with metric `Sales`. -/
theorem claim_C1_witness :
    ∃ t a g,
      calculate_metrics [(⟨"Jan", 1000, 800, 100⟩ : Row)] "Sales" =
        some (t, a, g) ∧
      (0 < Row.sales ⟨"Jan", 1000, 800, 100⟩ →
        g = (Row.sales (([(⟨"Jan", 1000, 800, 100⟩ : Row)]).getLast
                (List.cons_ne_nil (⟨"Jan", 1000, 800, 100⟩ : Row) [])) -
              Row.sales ⟨"Jan", 1000, 800, 100⟩) /
            Row.sales ⟨"Jan", 1000, 800, 100⟩ * 100) ∧
      (Row.sales ⟨"Jan", 1000, 800, 100⟩ ≤ 0 → g = 0) ∧
      (Row.sales ⟨"Jan", 1000, 800, 100⟩ = 0 → g = 0) :=
  claim_C1_growth_formula ⟨"Jan", 1000, 800, 100⟩ [] "Sales" Row.sales rfl

/-- C6: on every view and valid metric, the line chart has one point per
row in view order, the y-value at index `i` being the metric value of row
`i` and the x column being the months; it is titled `Monthly {metric}`
with axis labels `Month` and the metric name. -/
theorem claim_C6_line_chart_points (df : List Row) (m : String)
    (f : Row → ℚ) (hf : colFn m = some f) :
    ∃ c, update_line_chart df m = some c ∧
      c.y.length = df.length ∧
      (∀ i : Nat, c.y[i]? = (df[i]?).map f) ∧
      c.x = df.map Row.month ∧
      c.markers = true ∧
      c.title = "Monthly " ++ m ∧
      c.xaxisTitle = "Month" ∧
      c.yaxisTitle = m := by
  refine ⟨{ x := df.map Row.month, y := df.map f, markers := true,
            title := "Monthly " ++ m, xaxisTitle := "Month",
            yaxisTitle := m }, ?_, by simp, ?_, rfl, rfl, rfl, rfl, rfl⟩
  · unfold update_line_chart
    rw [show getCol df m = some (df.map f) by simp [getCol, hf]]
  · intro i
    simp

/-- C6 witness: the theorem instantiated at the single-row view `[Jan]`
with metric `Sales`. -/
theorem claim_C6_witness :
    ∃ c, update_line_chart [(⟨"Jan", 1000, 800, 100⟩ : Row)] "Sales" =
        some c ∧
      c.y.length = ([(⟨"Jan", 1000, 800, 100⟩ : Row)]).length ∧
      (∀ i : Nat,
        c.y[i]? = (([(⟨"Jan", 1000, 800, 100⟩ : Row)])[i]?).map Row.sales) ∧
      c.x = ([(⟨"Jan", 1000, 800, 100⟩ : Row)]).map Row.month ∧
      c.markers = true ∧
      c.title = "Monthly " ++ "Sales" ∧
      c.xaxisTitle = "Month" ∧
      c.yaxisTitle = "Sales" :=
  claim_C6_line_chart_points [⟨"Jan", 1000, 800, 100⟩] "Sales" Row.sales rfl

/-- C7: on every non-empty view the bar chart has exactly the three bars
`Sales`, `Expenses`, `Customers`, is titled `Average Metrics`, and its
values are the view's mean Sales, mean Expenses, and 10 times the
arithmetic mean of Customers. -/
theorem claim_C7_bar_chart_averages (df : List Row) (h : df ≠ []) :
    update_bar_chart df =
      { x := ["Sales", "Expenses", "Customers"],
        y := [mean (df.map Row.sales), mean (df.map Row.expenses),
              10 * mean (df.map Row.customers)],
        title := "Average Metrics",
        color := "Metric" } := by
  unfold update_bar_chart
  rw [show mean (df.map Row.customers) * 10 =
        10 * mean (df.map Row.customers) from mul_comm _ _]

/-- C7 witness: the theorem instantiated at the full table. -/
theorem claim_C7_witness :
    update_bar_chart load_data =
      { x := ["Sales", "Expenses", "Customers"],
        y := [mean (load_data.map Row.sales),
              mean (load_data.map Row.expenses),
              10 * mean (load_data.map Row.customers)],
        title := "Average Metrics",
        color := "Metric" } :=
  claim_C7_bar_chart_averages load_data (by simp [load_data])

/-- C8: on every view with exactly one row and every valid metric,
`calculate_metrics` returns growth `0`. -/
theorem claim_C8_single_row_growth_zero (df : List Row)
    (h1 : df.length = 1) (m : String) (hm : m ∈ validMetrics) :
    ∃ t a, calculate_metrics df m = some (t, a, 0) := by
  obtain ⟨f, hf⟩ := colFn_of_mem hm
  obtain ⟨r, rfl⟩ : ∃ r, df = [r] := by
    cases df with
    | nil => simp at h1
    | cons a l =>
      cases l with
      | nil => exact ⟨a, rfl⟩
      | cons b t => simp at h1
  rw [calculate_metrics_cons [r] m (f r) [] (by simp [getCol, hf])]
  have h0 : (if f r > 0 then
      ((([] : List ℚ).getLastD (f r) - f r) / f r) * 100 else 0) = (0 : ℚ) := by
    split <;> simp
  rw [h0]
  exact ⟨_, _, rfl⟩

/-- C8 witness: the theorem instantiated at the single-row view `[Jan]`
with metric `Sales`. -/
theorem claim_C8_witness :
    ∃ t a, calculate_metrics [(⟨"Jan", 1000, 800, 100⟩ : Row)] "Sales" =
      some (t, a, 0) :=
  claim_C8_single_row_growth_zero [⟨"Jan", 1000, 800, 100⟩] rfl "Sales"
    (by simp [validMetrics])

/-- C10: `calculate_metrics` yields no metrics tuple on an empty view (it
reads the first row unconditionally, modelled by `none`), and it is total
on every non-empty view with a valid metric. -/
theorem claim_C10_empty_view_fails :
    (∀ m : String, calculate_metrics ([] : List Row) m = none) ∧
    (∀ df : List Row, df ≠ [] → ∀ m ∈ validMetrics,
      (calculate_metrics df m).isSome = true) := by
  refine ⟨calculate_metrics_nil, ?_⟩
  intro df hdf m hm
  obtain ⟨f, hf⟩ := colFn_of_mem hm
  cases df with
  | nil => exact absurd rfl hdf
  | cons r l =>
    rw [calculate_metrics_cons (r :: l) m (f r) (l.map f)
      (by simp [getCol, hf])]
    rfl

/-- C10 witness: the empty view fails for `Sales`, while the full table
succeeds. -/
theorem claim_C10_witness :
    calculate_metrics ([] : List Row) "Sales" = none ∧
    (calculate_metrics load_data "Sales").isSome = true :=
  ⟨claim_C10_empty_view_fails.1 "Sales",
   claim_C10_empty_view_fails.2 load_data (by simp [load_data]) "Sales"
     (by simp [validMetrics])⟩

/-- C3 counterexample: the out-of-range request `(start, end) = (0, 100)`
is not rejected: the code silently clamps the slice and returns exactly
the full-year metrics tuple. -/
theorem claim_C3_counterexample :
    run_dashboard 0 100 "Sales" = some (20400, 1700, 150) ∧
    run_dashboard 0 100 "Sales" = run_dashboard 0 11 "Sales" := by
  constructor
  · show calculate_metrics (filtered_df 0 100) "Sales" = _
    rw [show filtered_df 0 100 = load_data from rfl,
      calculate_metrics_cons load_data "Sales" 1000
        [1200, 900, 1500, 1800, 1700, 1600, 2000, 2200, 1900, 2100, 2500] rfl]
    norm_num [mean]
  · rfl

/-- C3 amended: an unknown metric name fails (the column lookup raises
`KeyError`, modelled `none`); a non-negative index pair with
`start > end` yields an empty view on which `calculate_metrics` raises
`IndexError` (modelled `none`); but out-of-range month indices are not
rejected — Python slicing silently clamps them, so `(0, 100)` produces
exactly the full-range output. -/
theorem claim_C3_amended_validation :
    (∀ (s e : Int) (m : String), m ∉ validMetrics →
      run_dashboard s e m = none) ∧
    (∀ s e : Int, 0 ≤ s → 0 ≤ e → e < s → ∀ m : String,
      run_dashboard s e m = none) ∧
    run_dashboard 0 100 "Sales" = run_dashboard 0 11 "Sales" := by
  refine ⟨?_, ?_, rfl⟩
  · intro s e m hm
    exact calculate_metrics_none_col
      (by simp [getCol, colFn_eq_none_of_not_mem hm])
  · intro s e hs he hse m
    have hempty : filtered_df s e = [] := by
      unfold filtered_df
      apply pySlice_eq_nil
      unfold pyIdx
      rw [if_neg (by omega), if_neg (by omega)]
      exact min_le_min (by omega) le_rfl
    show calculate_metrics (filtered_df s e) m = none
    rw [hempty]
    exact calculate_metrics_nil m

/-- C3 witness: the amended theorem applied at `Revenue` (an unknown
metric) and at the inverted range `(5, 2)`. -/
theorem claim_C3_witness :
    run_dashboard 0 11 "Revenue" = none ∧
    run_dashboard 5 2 "Sales" = none :=
  ⟨claim_C3_amended_validation.1 0 11 "Revenue" (by simp [validMetrics]),
   claim_C3_amended_validation.2.1 5 2 (by norm_num) (by norm_num)
     (by norm_num) "Sales"⟩

end Dashboard
